import Mathlib

/-!
Verification of the tesla-radar-crawler MVDIS plate-sync worker.

This file gives a shallow embedding of the crawl orchestration code in
src/gh-plate-sync.cjs, src/gh-plate-sync-ocr.cjs and src/trigger_swap.cjs:
the adaptive pacing rule, the token-bucket rate limiter, the CAPTCHA
solve/submit retry loops, result pagination, the staging-area writes and
the staged/atomic publish protocol, plus the top-level run control flow.
Asynchronous browser and database effects are modelled by explicit state
passing and by oracle functions supplying the outcomes of external calls.
-/

namespace PlateSync

/-! ## Adaptive pacing (gh-plate-sync.cjs, adaptiveSleep) -/

/-- Multiplier selected by adaptiveSleep from the last measured latency:
latency below 1500 ms gives 0.75, above 4000 ms gives 1.5, otherwise 1.0.
Embeds the if/else chain at gh-plate-sync.cjs lines 210-216. -/
def adaptiveMultiplier (latency : ℤ) : ℚ :=
  if latency < 1500 then 3 / 4
  else if latency > 4000 then 3 / 2
  else 1

/-- Final sleep window computed by adaptiveSleep: both base bounds are
scaled by the multiplier and floored (Math.floor), as at lines 218-219.
The random draw inside the window is not modelled; the window itself is. -/
def adaptiveSleep (mn mx : ℕ) (latency : ℤ) : ℤ × ℤ :=
  (Int.floor ((mn : ℚ) * adaptiveMultiplier latency),
   Int.floor ((mx : ℚ) * adaptiveMultiplier latency))

/-! ## Result pagination (gh-plate-sync.cjs, parsePageInfo and the
pagination loop inside processStation) -/

/-- Signals extracted from the rendered result page, corresponding to the
regex matches and DOM queries performed inside parsePageInfo:
whether a no-data message is present, the parsed total-count marker,
the parsed (current, total) page-number marker, and whether one of the
two next-page controls (input[name=status_next_page] or #next) exists. -/
structure PageSignals where
  noDataText : Bool
  countMarker : Option ℕ
  pageMarker : Option (ℕ × ℕ)
  hasNextButton : Bool
deriving DecidableEq, Repr

/-- Value returned by parsePageInfo. In the no-data branch the source
object literal has no hasNextButton field, so reading it yields a falsy
value; that is modelled as false. -/
structure PageInfo where
  current : ℕ
  total : ℕ
  count : ℕ
  noData : Bool
  hasNextButton : Bool
deriving DecidableEq, Repr

/-- Embedding of parsePageInfo (gh-plate-sync.cjs lines 276-316): the
no-data branch returns current 1 / total 1 / count 0; otherwise the
markers are read with defaults 0 and (1, 1), and the safety check raises
total to 2 when the marker claims a single page but a next-page control
exists. -/
def parsePageInfo (s : PageSignals) : PageInfo :=
  if s.noDataText then
    { current := 1, total := 1, count := 0, noData := true, hasNextButton := false }
  else
    let count := s.countMarker.getD 0
    let page := s.pageMarker.getD (1, 1)
    let total := if page.2 = 1 ∧ s.hasNextButton then 2 else page.2
    { current := page.1, total := total, count := count, noData := false,
      hasNextButton := s.hasNextButton }

/-- Action decided by one iteration of the pagination loop
(gh-plate-sync.cjs lines 534-577): stop on no-data; otherwise continue to
the next page exactly when (current < total or hasNextButton) holds and
one of the two next-page controls is found in the DOM. -/
inductive PageStep where
  | stop
  | clickNext
deriving DecidableEq, Repr

/-- Decision taken by the pagination loop body for the parsed info, given
whether each of the two next-page selectors currently resolves in the DOM. -/
def paginationStep (info : PageInfo) (domStatusNext domIdNext : Bool) : PageStep :=
  if info.noData then PageStep.stop
  else if info.current < info.total ∨ info.hasNextButton then
    if domStatusNext ∨ domIdNext then PageStep.clickNext else PageStep.stop
  else PageStep.stop

/-! ## RateLimiter (gh-plate-sync.cjs lines 48-72) -/

/-- State of the token-bucket rate limiter: capacity limit, refill period
interval (milliseconds), remaining tokens, and the timestamp of the last
refill. The source instance is geminiLimiter = new RateLimiter(25, 60000). -/
structure RateLimiter where
  limit : ℤ
  interval : ℤ
  tokens : ℤ
  lastRefill : ℤ
deriving DecidableEq, Repr

/-- Result of one wait() call: the state after the call, whether the call
blocked (slept), and the time at which the acquisition was granted. The
setTimeout sleep is modelled as waking exactly after waitTime, so the
Date.now() written to lastRefill in the blocked branch equals grantTime. -/
structure WaitResult where
  state : RateLimiter
  blocked : Bool
  grantTime : ℤ
deriving DecidableEq, Repr

/-- Periodic refill check at the top of wait() (lines 57-61): when more
than interval has elapsed since the last refill, the bucket is refilled
to capacity and lastRefill is set to now. -/
def RateLimiter.refillIfDue (s : RateLimiter) (now : ℤ) : RateLimiter :=
  if s.interval < now - s.lastRefill then
    { s with tokens := s.limit, lastRefill := now }
  else s

/-- Embedding of RateLimiter.wait (lines 56-71): after the periodic refill
check, a call finding no tokens sleeps for
interval - (now - lastRefill) + 1000 milliseconds, refills the bucket and
resets lastRefill to the wake-up time; finally one token is consumed. -/
def RateLimiter.wait (s : RateLimiter) (now : ℤ) : WaitResult :=
  let s1 := s.refillIfDue now
  if s1.tokens ≤ 0 then
    let grant := now + (s1.interval - (now - s1.lastRefill) + 1000)
    { state := { s1 with tokens := s1.limit - 1, lastRefill := grant },
      blocked := true, grantTime := grant }
  else
    { state := { s1 with tokens := s1.tokens - 1 }, blocked := false, grantTime := now }

/-- Trace of successive wait() calls at the given call times, recording
for each acquisition its grant time and the lastRefill anchor in force
when it was granted. -/
def runWaits (s : RateLimiter) : List ℤ → List (ℤ × ℤ)
  | [] => []
  | t :: ts =>
    let r := s.wait t
    (r.grantTime, r.state.lastRefill) :: runWaits r.state ts

/-- Validity of a list of call times for a starting state: each call
happens no earlier than the current lastRefill anchor (the single-threaded
caller can only invoke wait after the previous grant, and time is
monotone). -/
def validTimes (s : RateLimiter) : List ℤ → Bool
  | [] => true
  | t :: ts => decide (s.lastRefill ≤ t) && validTimes (s.wait t).state ts

/-- Number of acquisitions in a trace granted under the refill anchor a. -/
def countAnchor (grants : List (ℤ × ℤ)) (a : ℤ) : ℕ :=
  grants.countP (fun g => g.2 == a)

theorem RateLimiter.wait_refill (s : RateLimiter) (now : ℤ)
    (h : s.interval < now - s.lastRefill) (hlim : 1 ≤ s.limit) :
    s.wait now =
      ⟨⟨s.limit, s.interval, s.limit - 1, now⟩, false, now⟩ := by
  simp only [RateLimiter.wait, RateLimiter.refillIfDue, if_pos h]
  rw [if_neg (by simp; omega)]

theorem RateLimiter.wait_block (s : RateLimiter) (now : ℤ)
    (h : ¬ s.interval < now - s.lastRefill) (htok : s.tokens ≤ 0) :
    s.wait now =
      ⟨⟨s.limit, s.interval, s.limit - 1, s.lastRefill + s.interval + 1000⟩,
        true, s.lastRefill + s.interval + 1000⟩ := by
  simp only [RateLimiter.wait, RateLimiter.refillIfDue, if_neg h, if_pos htok]
  have : now + (s.interval - (now - s.lastRefill) + 1000) =
      s.lastRefill + s.interval + 1000 := by ring
  rw [this]

theorem RateLimiter.wait_pass (s : RateLimiter) (now : ℤ)
    (h : ¬ s.interval < now - s.lastRefill) (htok : 0 < s.tokens) :
    s.wait now =
      ⟨⟨s.limit, s.interval, s.tokens - 1, s.lastRefill⟩, false, now⟩ := by
  simp only [RateLimiter.wait, RateLimiter.refillIfDue, if_neg h]
  rw [if_neg (by simp; omega)]

theorem countAnchor_cons (g : ℤ × ℤ) (l : List (ℤ × ℤ)) (a : ℤ) :
    (countAnchor (g :: l) a : ℤ) =
      (if g.2 = a then 1 else 0) + countAnchor l a := by
  simp only [countAnchor, List.countP_cons, beq_iff_eq]
  split_ifs with h
  · push_cast
    omega
  · push_cast
    omega

/-- Anchored counting invariant: along any valid trace, the number of
acquisitions granted under the current anchor is bounded by the remaining
tokens, no acquisition is ever granted under an anchor older than the
current one, and acquisitions under any future anchor are bounded by the
capacity. -/
theorem runWaits_countAnchor_aux (ts : List ℤ) :
    ∀ (s : RateLimiter) (a : ℤ),
    validTimes s ts = true → 0 ≤ s.tokens → s.tokens ≤ s.limit →
    1 ≤ s.limit → 0 < s.interval →
    (countAnchor (runWaits s ts) a : ℤ) ≤
      (if a = s.lastRefill then s.tokens
       else if a < s.lastRefill then 0 else s.limit) := by
  induction ts with
  | nil =>
    intro s a _ h0 hl hlim _
    simp only [runWaits, countAnchor, List.countP_nil]
    split_ifs <;> omega
  | cons t ts ih =>
    intro s a hv h0 hl hlim hint
    simp only [validTimes, Bool.and_eq_true, decide_eq_true_eq] at hv
    obtain ⟨hle, hv'⟩ := hv
    by_cases hrefill : s.interval < t - s.lastRefill
    · have hw := RateLimiter.wait_refill s t hrefill hlim
      simp only [runWaits, hw] at hv' ⊢
      have ihh : (countAnchor
            (runWaits ⟨s.limit, s.interval, s.limit - 1, t⟩ ts) a : ℤ) ≤
          (if a = t then s.limit - 1 else if a < t then 0 else s.limit) :=
        ih ⟨s.limit, s.interval, s.limit - 1, t⟩ a hv'
          (show (0 : ℤ) ≤ s.limit - 1 by omega)
          (show s.limit - 1 ≤ s.limit by omega) hlim hint
      have hcons : (countAnchor
            ((t, t) :: runWaits ⟨s.limit, s.interval, s.limit - 1, t⟩ ts) a : ℤ) =
          (if t = a then 1 else 0) +
            (countAnchor (runWaits ⟨s.limit, s.interval, s.limit - 1, t⟩ ts) a : ℤ) :=
        countAnchor_cons (t, t) _ a
      rw [hcons]
      split_ifs at ihh ⊢ <;> omega
    · by_cases htok : s.tokens ≤ 0
      · have hw := RateLimiter.wait_block s t hrefill htok
        simp only [runWaits, hw] at hv' ⊢
        set g := s.lastRefill + s.interval + 1000 with hg
        have ihh : (countAnchor
              (runWaits ⟨s.limit, s.interval, s.limit - 1, g⟩ ts) a : ℤ) ≤
            (if a = g then s.limit - 1 else if a < g then 0 else s.limit) :=
          ih ⟨s.limit, s.interval, s.limit - 1, g⟩ a hv'
            (show (0 : ℤ) ≤ s.limit - 1 by omega)
            (show s.limit - 1 ≤ s.limit by omega) hlim hint
        have hcons : (countAnchor
              ((g, g) :: runWaits ⟨s.limit, s.interval, s.limit - 1, g⟩ ts) a : ℤ) =
            (if g = a then 1 else 0) +
              (countAnchor (runWaits ⟨s.limit, s.interval, s.limit - 1, g⟩ ts) a : ℤ) :=
          countAnchor_cons (g, g) _ a
        rw [hcons]
        split_ifs at ihh ⊢ <;> omega
      · have hw := RateLimiter.wait_pass s t hrefill (by omega)
        simp only [runWaits, hw] at hv' ⊢
        have ihh : (countAnchor
              (runWaits ⟨s.limit, s.interval, s.tokens - 1, s.lastRefill⟩ ts) a : ℤ) ≤
            (if a = s.lastRefill then s.tokens - 1
             else if a < s.lastRefill then 0 else s.limit) :=
          ih ⟨s.limit, s.interval, s.tokens - 1, s.lastRefill⟩ a hv'
            (show (0 : ℤ) ≤ s.tokens - 1 by omega)
            (show s.tokens - 1 ≤ s.limit by omega) hlim hint
        have hcons : (countAnchor
              ((t, s.lastRefill) ::
                runWaits ⟨s.limit, s.interval, s.tokens - 1, s.lastRefill⟩ ts) a : ℤ) =
            (if s.lastRefill = a then 1 else 0) +
              (countAnchor
                (runWaits ⟨s.limit, s.interval, s.tokens - 1, s.lastRefill⟩ ts) a : ℤ) :=
          countAnchor_cons (t, s.lastRefill) _ a
        rw [hcons]
        split_ifs at ihh ⊢ <;> omega

/-- C9: the rate limiter consumes one token per acquisition, does not
block while tokens remain, blocks with zero tokens until the next refill
boundary plus the 1000 ms safety margin and then refills to capacity and
proceeds, always grants at a time no earlier than the call, and along any
valid trace starting from a full bucket at most limit acquisitions are
granted under any one refill anchor. -/
theorem rateLimiter_token_bucket :
    (∀ (s : RateLimiter) (now : ℤ),
      (s.wait now).state.tokens =
        (if (s.refillIfDue now).tokens ≤ 0 then s.limit
         else (s.refillIfDue now).tokens) - 1) ∧
    (∀ (s : RateLimiter) (now : ℤ), 1 ≤ s.limit → 0 < s.tokens →
      (s.wait now).blocked = false ∧ (s.wait now).grantTime = now) ∧
    (∀ (s : RateLimiter) (now : ℤ), s.tokens ≤ 0 → now - s.lastRefill ≤ s.interval →
      (s.wait now).blocked = true ∧
      (s.wait now).grantTime = s.lastRefill + s.interval + 1000 ∧
      (s.wait now).state.tokens = s.limit - 1 ∧
      (s.wait now).state.lastRefill = (s.wait now).grantTime) ∧
    (∀ (s : RateLimiter) (now : ℤ), s.lastRefill ≤ now → 0 ≤ s.interval →
      now ≤ (s.wait now).grantTime) ∧
    (∀ (s : RateLimiter) (ts : List ℤ) (a : ℤ),
      validTimes s ts = true → s.tokens = s.limit → 1 ≤ s.limit →
      0 < s.interval →
      (countAnchor (runWaits s ts) a : ℤ) ≤ s.limit) := by
  refine ⟨?_, ?_, ?_, ?_, ?_⟩
  · intro s now
    simp only [RateLimiter.wait, RateLimiter.refillIfDue]
    split_ifs <;> simp_all
  · intro s now hlim htok
    by_cases hrefill : s.interval < now - s.lastRefill
    · rw [RateLimiter.wait_refill s now hrefill hlim]
      exact ⟨rfl, rfl⟩
    · rw [RateLimiter.wait_pass s now hrefill htok]
      exact ⟨rfl, rfl⟩
  · intro s now htok helapsed
    rw [RateLimiter.wait_block s now (by omega) htok]
    exact ⟨rfl, rfl, rfl, rfl⟩
  · intro s now hle hint
    simp only [RateLimiter.wait, RateLimiter.refillIfDue]
    split_ifs <;> simp <;> omega
  · intro s ts a hv hfull hlim hint
    have h := runWaits_countAnchor_aux ts s a hv (by omega) (by omega) hlim hint
    split_ifs at h <;> omega

/-- Witness for C9 at the source instance RateLimiter(25, 60000): a call
with tokens left does not block, a call with zero tokens is granted at
lastRefill + 60000 + 1000, one token is consumed, and a concrete valid
three-call trace grants at most 25 acquisitions under any anchor. -/
theorem rateLimiter_token_bucket_witness :
    (RateLimiter.wait ⟨25, 60000, 25, 0⟩ 10).blocked = false ∧
    (RateLimiter.wait ⟨25, 60000, 25, 0⟩ 10).state.tokens = 24 ∧
    (RateLimiter.wait ⟨25, 60000, 0, 50⟩ 900).blocked = true ∧
    (RateLimiter.wait ⟨25, 60000, 0, 50⟩ 900).grantTime = 61050 ∧
    (10 : ℤ) ≤ (RateLimiter.wait ⟨25, 60000, 25, 0⟩ 10).grantTime ∧
    (countAnchor (runWaits ⟨25, 60000, 25, 0⟩ [10, 20, 30]) 0 : ℤ) ≤ 25 := by
  obtain ⟨hcons, hpass, hblock, hgrant, htrace⟩ := rateLimiter_token_bucket
  refine ⟨(hpass ⟨25, 60000, 25, 0⟩ 10 (by norm_num) (by norm_num)).1, ?_,
    (hblock ⟨25, 60000, 0, 50⟩ 900 (by norm_num) (by norm_num)).1, ?_,
    hgrant ⟨25, 60000, 25, 0⟩ 10 (by norm_num) (by norm_num),
    htrace ⟨25, 60000, 25, 0⟩ [10, 20, 30] 0 (by decide) rfl (by norm_num) (by norm_num)⟩
  · rw [hcons ⟨25, 60000, 25, 0⟩ 10]
    decide
  · rw [(hblock ⟨25, 60000, 0, 50⟩ 900 (by norm_num) (by norm_num)).2.1]
    norm_num

/-! ## CAPTCHA solving and the retry loops (gh-plate-sync.cjs
solveCaptcha and processStation; gh-plate-sync-ocr.cjs processStation) -/

/-- Character class kept by the normalization regex [A-Z0-9]. -/
def isCaptchaChar (c : Char) : Bool :=
  decide ('A' ≤ c ∧ c ≤ 'Z') || decide ('0' ≤ c ∧ c ≤ '9')

/-- Model of JavaScript String.prototype.trim: strip whitespace from both
ends of the character list. -/
def jsTrim (l : List Char) : List Char :=
  ((l.dropWhile Char.isWhitespace).reverse.dropWhile Char.isWhitespace).reverse

/-- Normalization applied to the model answer in solveCaptcha (line 255):
trim, uppercase, then delete every character outside A-Z and 0-9. -/
def normalizeAnswer (s : String) : String :=
  ⟨((jsTrim s.data).map Char.toUpper).filter isCaptchaChar⟩

/-- Model of solveCaptcha (lines 238-266): every error path (missing
image element, API failure) returns null, modelled as none; otherwise the
response text is normalized. -/
def solveCaptcha (modelText : Option String) : Option String :=
  modelText.map normalizeAnswer

/-- Truthiness-and-length check applied to a solver result at line 472:
the code is kept only when it is non-null, nonempty and exactly 4
characters long. -/
def acceptCandidate (rawCode : Option String) : Bool :=
  match rawCode with
  | none => false
  | some c => !(c == "") && (c.length == 4)

/-- Refresh condition at the start of an inner CAPTCHA iteration (line
456): the image is refreshed on every iteration except the very first
inner iteration of the very first outer attempt. Arguments are the outer
attempt number and the inner counter value after its increment. -/
def refreshCondition (attempts captchaAttempts : ℕ) : Bool :=
  decide (captchaAttempts > 1) || decide (attempts > 1)

/-- Inner CAPTCHA loop of processStation (lines 449-485), fuel-based:
while no valid code is held and fewer than 5 sub-attempts have been made,
solve once more and keep only an accepted candidate. The solver argument
gives the already-normalized result of each sub-attempt, with none for
the null error path. Called with fuel = 5 - k where k is the current
counter value; returns the accepted code, if any, and the final counter. -/
def captchaInnerLoop (solver : ℕ → Option String) : ℕ → ℕ → Option String × ℕ
  | 0, k => (none, k)
  | fuel + 1, k =>
    let raw := solver (k + 1)
    if acceptCandidate raw then (raw, k + 1)
    else captchaInnerLoop solver fuel (k + 1)

/-- Full inner loop as entered by the source, with captchaAttempts = 0
and budget 5. -/
def captchaInner (solver : ℕ → Option String) : Option String × ℕ :=
  captchaInnerLoop solver 5 0

/-- Outcome of submitting a candidate code, as decided by the racing
waitForFunction / dialog handler (lines 495-521). -/
inductive SubmitOutcome where
  | accepted
  | alertRejected
  | timedOut
deriving DecidableEq, Repr

/-- Oracle for one PlateQuery attempt sequence: the normalized solver
result for inner sub-attempt j of outer attempt i, and the submission
outcome of outer attempt i. -/
structure QueryEnv where
  solver : ℕ → ℕ → Option String
  submit : ℕ → SubmitOutcome

/-- Outer retry loop of processStation (lines 443-529), fuel-based with
maxQueryAttempts = 10: each outer attempt restarts the inner CAPTCHA
loop; failing to obtain a code consumes the attempt, and a submission
consumes the attempt unless it is accepted. Returns (success, outer
attempts used, inner sub-attempt counts per outer attempt). -/
def queryOuterLoop (e : QueryEnv) : ℕ → ℕ → Bool × ℕ × List ℕ
  | 0, a => (false, a, [])
  | fuel + 1, a =>
    let code := captchaInner (e.solver (a + 1))
    match code.1 with
    | none =>
      let r := queryOuterLoop e fuel (a + 1)
      (r.1, r.2.1, code.2 :: r.2.2)
    | some _ =>
      match e.submit (a + 1) with
      | SubmitOutcome.accepted => (true, a + 1, [code.2])
      | _ =>
        let r := queryOuterLoop e fuel (a + 1)
        (r.1, r.2.1, code.2 :: r.2.2)

/-- Full outer loop as entered by the source: attempts = 0, budget 10. -/
def runPlateQuery (e : QueryEnv) : Bool × ℕ × List ℕ :=
  queryOuterLoop e 10 0

/-- Station status recorded after the outer loop (lines 531-614): the
per-type query keeps status SUCCESS unless the loop ended without
success, in which case the station is marked FAILED and not retried. -/
def queryStatus (success : Bool) : String :=
  if success then "SUCCESS" else "FAILED"

/-- Oracle for the OCR variant: solver result and submission outcome per
attempt. -/
structure OcrEnv where
  solver : ℕ → Option String
  submit : ℕ → SubmitOutcome

/-- Retry loop of the OCR variant (gh-plate-sync-ocr.cjs lines 194-240),
fuel-based with cap 5: a null, empty or shorter-than-4 result consumes
the attempt without submitting; otherwise the code is submitted and only
an accepted submission ends the loop. Returns (success, attempts used). -/
def ocrOuterLoop (e : OcrEnv) : ℕ → ℕ → Bool × ℕ
  | 0, a => (false, a)
  | fuel + 1, a =>
    match e.solver (a + 1) with
    | none => ocrOuterLoop e fuel (a + 1)
    | some c =>
      if c = "" ∨ c.length < 4 then ocrOuterLoop e fuel (a + 1)
      else
        match e.submit (a + 1) with
        | SubmitOutcome.accepted => (true, a + 1)
        | _ => ocrOuterLoop e fuel (a + 1)

/-- Full OCR loop as entered by the source: attempts = 0, budget 5. -/
def runOcrQuery (e : OcrEnv) : Bool × ℕ :=
  ocrOuterLoop e 5 0

/-- Submission check of the OCR variant (gh-plate-sync-ocr.cjs lines
207-210): `if (!code || code.length < 4) continue;` — the answer is
submitted exactly when it is non-null, nonempty and of length at least 4;
only a strictly shorter answer is skipped. -/
def ocrSubmitCheck (code : Option String) : Bool :=
  match code with
  | none => false
  | some c => !(c == "" || decide (c.length < 4))

theorem captchaInnerLoop_counter_le (solver : ℕ → Option String) :
    ∀ fuel k, (captchaInnerLoop solver fuel k).2 ≤ k + fuel := by
  intro fuel
  induction fuel with
  | zero => intro k; simp [captchaInnerLoop]
  | succ n ih =>
    intro k
    simp only [captchaInnerLoop]
    split_ifs
    · show k + 1 ≤ k + (n + 1)
      omega
    · have := ih (k + 1)
      omega

theorem captchaInnerLoop_sound (solver : ℕ → Option String) :
    ∀ fuel k c, (captchaInnerLoop solver fuel k).1 = some c →
      acceptCandidate (some c) = true := by
  intro fuel
  induction fuel with
  | zero => intro k c h; simp [captchaInnerLoop] at h
  | succ n ih =>
    intro k c h
    simp only [captchaInnerLoop] at h
    split_ifs at h with hacc
    · simp only at h
      rw [h] at hacc
      exact hacc
    · exact ih (k + 1) c h

theorem queryOuterLoop_attempts_le (e : QueryEnv) :
    ∀ fuel a, (queryOuterLoop e fuel a).2.1 ≤ a + fuel := by
  intro fuel
  induction fuel with
  | zero => intro a; simp [queryOuterLoop]
  | succ n ih =>
    intro a
    have hih := ih (a + 1)
    simp only [queryOuterLoop]
    rcases h1 : (captchaInner (e.solver (a + 1))).1 with _ | c <;> simp only [h1]
    · omega
    · rcases h2 : e.submit (a + 1) with _ | _ | _ <;> simp only [h2] <;> omega

theorem queryOuterLoop_inner_le (e : QueryEnv) :
    ∀ fuel a c, c ∈ (queryOuterLoop e fuel a).2.2 → c ≤ 5 := by
  intro fuel
  induction fuel with
  | zero => intro a c h; simp [queryOuterLoop] at h
  | succ n ih =>
    intro a c h
    simp only [queryOuterLoop] at h
    have hin : (captchaInner (e.solver (a + 1))).2 ≤ 5 :=
      captchaInnerLoop_counter_le (e.solver (a + 1)) 5 0
    rcases h1 : (captchaInner (e.solver (a + 1))).1 with _ | cc
    · simp only [h1, List.mem_cons] at h
      rcases h with h | h
      · rw [h]
        exact hin
      · exact ih (a + 1) c h
    · rcases h2 : e.submit (a + 1) with _ | _ | _ <;>
        simp only [h1, h2, List.mem_cons, List.mem_singleton,
          List.not_mem_nil, or_false] at h
      · rw [h]
        exact hin
      · rcases h with h | h
        · rw [h]
          exact hin
        · exact ih (a + 1) c h
      · rcases h with h | h
        · rw [h]
          exact hin
        · exact ih (a + 1) c h

theorem ocrOuterLoop_attempts_le (e : OcrEnv) :
    ∀ fuel a, (ocrOuterLoop e fuel a).2 ≤ a + fuel := by
  intro fuel
  induction fuel with
  | zero => intro a; simp [ocrOuterLoop]
  | succ n ih =>
    intro a
    have hih := ih (a + 1)
    simp only [ocrOuterLoop]
    rcases h1 : e.solver (a + 1) with _ | c <;> simp only [h1]
    · omega
    · split_ifs
      · omega
      · rcases h2 : e.submit (a + 1) with _ | _ | _ <;> simp only [h2] <;> omega

/-- C4: for every oracle environment, a PlateQuery uses at most 10 outer
solve-and-submit attempts and at most 5 CAPTCHA sub-attempts within each
outer attempt; an unsuccessful loop leaves the query marked FAILED, and
the OCR variant uses at most its cap of 5 outer attempts. -/
theorem plateQuery_retry_caps :
    (∀ e : QueryEnv, (runPlateQuery e).2.1 ≤ 10 ∧
      ∀ c ∈ (runPlateQuery e).2.2, c ≤ 5) ∧
    (∀ e : QueryEnv, (runPlateQuery e).1 = false →
      queryStatus (runPlateQuery e).1 = "FAILED") ∧
    (∀ e : OcrEnv, (runOcrQuery e).2 ≤ 5) := by
  refine ⟨fun e => ⟨?_, fun c hc => queryOuterLoop_inner_le e 10 0 c hc⟩,
    fun e hf => ?_, fun e => ?_⟩
  · simpa using queryOuterLoop_attempts_le e 10 0
  · rw [queryStatus, hf]
    simp
  · simpa using ocrOuterLoop_attempts_le e 5 0

/-- Witness for C4 on a concrete environment in which every solver answer
is rejected by the portal: all 10 outer attempts are consumed, each inner
count is at most 5, the query ends FAILED, and the OCR loop consumes its
5 attempts. -/
theorem plateQuery_retry_caps_witness :
    (runPlateQuery ⟨fun _ _ => some "AB12", fun _ => SubmitOutcome.alertRejected⟩).2.1 ≤ 10 ∧
    (∀ c ∈ (runPlateQuery
      ⟨fun _ _ => some "AB12", fun _ => SubmitOutcome.alertRejected⟩).2.2, c ≤ 5) ∧
    queryStatus (runPlateQuery
      ⟨fun _ _ => some "AB12", fun _ => SubmitOutcome.alertRejected⟩).1 = "FAILED" ∧
    (runOcrQuery ⟨fun _ => some "XY99", fun _ => SubmitOutcome.timedOut⟩).2 ≤ 5 := by
  obtain ⟨h1, h2, h3⟩ := plateQuery_retry_caps
  exact ⟨(h1 _).1, (h1 _).2,
    h2 ⟨fun _ _ => some "AB12", fun _ => SubmitOutcome.alertRejected⟩ (by decide),
    h3 _⟩

/-- C7 counterexample: in the OCR variant the length check is only
`code.length < 4`, so the 5-character answer ABC12 passes the submission
check and is submitted (and here accepted) on the very first attempt,
instead of triggering a refresh and another re-solve as the claim states
for answers longer than 4 characters. -/
theorem ocr_submits_long_answer_counterexample :
    "ABC12".length = 5 ∧
    ocrSubmitCheck (some "ABC12") = true ∧
    runOcrQuery ⟨fun _ => some "ABC12", fun _ => SubmitOutcome.accepted⟩ = (true, 1) := by
  refine ⟨rfl, by decide, by decide⟩

/-- C7 amended: in gh-plate-sync.cjs, normalization keeps only uppercase
alphanumerics; a solver answer is accepted as a submission candidate
exactly when it is non-null and of length 4 after normalization; every
code the inner loop hands to submission has length 4; a rejected answer
makes the loop run another re-solve iteration instead of submitting; and
every inner iteration after the first refreshes the CAPTCHA image first.
In the OCR variant (gh-plate-sync-ocr.cjs), the check is only
`code.length < 4`: an answer is submitted exactly when it is non-null,
nonempty and of length at least 4 — including answers longer than 4 —
while a null, empty or shorter answer consumes the attempt without a
submission. -/
theorem captcha_candidate_acceptance :
    (∀ s : String, (normalizeAnswer s).toList.all isCaptchaChar = true) ∧
    (∀ r : Option String, acceptCandidate r = true ↔
      ∃ c, r = some c ∧ c.length = 4) ∧
    (∀ (solver : ℕ → Option String) (fuel k : ℕ) (c : String),
      (captchaInnerLoop solver fuel k).1 = some c → c.length = 4) ∧
    (∀ (solver : ℕ → Option String) (fuel k : ℕ),
      acceptCandidate (solver (k + 1)) = false →
      captchaInnerLoop solver (fuel + 1) k = captchaInnerLoop solver fuel (k + 1)) ∧
    (∀ attempts k : ℕ, refreshCondition attempts (k + 2) = true) ∧
    (∀ c : String, ocrSubmitCheck (some c) = true ↔ c ≠ "" ∧ 4 ≤ c.length) ∧
    (∀ (e : OcrEnv) (fuel a : ℕ), ocrSubmitCheck (e.solver (a + 1)) = false →
      ocrOuterLoop e (fuel + 1) a = ocrOuterLoop e fuel (a + 1)) ∧
    (∀ (e : OcrEnv) (fuel a : ℕ), ocrSubmitCheck (e.solver (a + 1)) = true →
      e.submit (a + 1) = SubmitOutcome.accepted →
      ocrOuterLoop e (fuel + 1) a = (true, a + 1)) := by
  refine ⟨fun s => ?_, fun r => ?_, fun solver fuel k c h => ?_, fun solver fuel k h => ?_,
    fun attempts k => ?_, fun c => ?_, fun e fuel a hf => ?_, fun e fuel a ht hs => ?_⟩
  · simp only [normalizeAnswer, List.all_eq_true]
    intro c hc
    exact (List.mem_filter.mp hc).2
  · rcases r with _ | c
    · simp [acceptCandidate]
    · simp only [acceptCandidate, Bool.and_eq_true, Bool.not_eq_true', beq_iff_eq,
        beq_eq_false_iff_ne, ne_eq, Option.some.injEq]
      constructor
      · rintro ⟨-, hlen⟩
        exact ⟨c, rfl, hlen⟩
      · rintro ⟨c2, hc2, hlen⟩
        rw [← hc2] at hlen
        refine ⟨?_, hlen⟩
        intro hempty
        rw [hempty] at hlen
        simp at hlen

  · have := captchaInnerLoop_sound solver fuel k c h
    simp only [acceptCandidate, Bool.and_eq_true, beq_iff_eq] at this
    exact this.2
  · simp only [captchaInnerLoop, h]
    simp
  · simp [refreshCondition]
  · simp only [ocrSubmitCheck, Bool.not_eq_true', Bool.or_eq_false_iff,
      beq_eq_false_iff_ne, ne_eq, decide_eq_false_iff_not, Nat.not_lt]
  · rcases h1 : e.solver (a + 1) with _ | c
    · simp only [ocrOuterLoop, h1]
    · rw [h1] at hf
      have hcond : c = "" ∨ c.length < 4 := by
        simp only [ocrSubmitCheck, Bool.not_eq_false', Bool.or_eq_true, beq_iff_eq,
          decide_eq_true_eq] at hf
        exact hf
      simp only [ocrOuterLoop, h1]
      rw [if_pos hcond]
  · rcases h1 : e.solver (a + 1) with _ | c
    · rw [h1] at ht
      simp [ocrSubmitCheck] at ht
    · rw [h1] at ht
      have hcond : ¬(c = "" ∨ c.length < 4) := by
        simp only [ocrSubmitCheck, Bool.not_eq_true', Bool.or_eq_false_iff,
          beq_eq_false_iff_ne, ne_eq, decide_eq_false_iff_not] at ht
        rintro (h2 | h2)
        · exact ht.1 h2
        · exact ht.2 h2
      simp only [ocrOuterLoop, h1]
      rw [if_neg hcond]
      simp only [hs]

/-- Witness for the amended C7: the raw answer " ab-12 " normalizes to
AB12 and is accepted; the raw answer "abc" normalizes to ABC, is
rejected, and a rejecting solver makes the inner loop take another
iteration; every iteration with inner counter at least 2 refreshes the
image; in the OCR variant the 5-character answer ABC12 passes the
submission check and is submitted on the first attempt, while the
2-character answer AB consumes the attempt without a submission. -/
theorem captcha_candidate_acceptance_witness :
    (normalizeAnswer " ab-12 ").toList.all isCaptchaChar = true ∧
    acceptCandidate (some (normalizeAnswer " ab-12 ")) = true ∧
    (acceptCandidate (some (normalizeAnswer "abc")) = true ↔
      ∃ c, some (normalizeAnswer "abc") = some c ∧ c.length = 4) ∧
    captchaInnerLoop (fun _ => some "ABC") 5 0 =
      captchaInnerLoop (fun _ => some "ABC") 4 1 ∧
    refreshCondition 1 2 = true ∧
    (ocrSubmitCheck (some "ABC12") = true ↔ "ABC12" ≠ "" ∧ 4 ≤ "ABC12".length) ∧
    ocrOuterLoop ⟨fun _ => some "AB", fun _ => SubmitOutcome.accepted⟩ 5 0 =
      ocrOuterLoop ⟨fun _ => some "AB", fun _ => SubmitOutcome.accepted⟩ 4 1 ∧
    ocrOuterLoop ⟨fun _ => some "ABC12", fun _ => SubmitOutcome.accepted⟩ 5 0 =
      (true, 1) := by
  obtain ⟨h1, h2, h3, h4, h5, h6, h7, h8⟩ := captcha_candidate_acceptance
  refine ⟨h1 " ab-12 ", ?_, h2 (some (normalizeAnswer "abc")), ?_, h5 1 0,
    h6 "ABC12", ?_, ?_⟩
  · rw [(h2 (some (normalizeAnswer " ab-12 "))).2 ⟨normalizeAnswer " ab-12 ", rfl, by decide⟩]
  · exact h4 (fun _ => some "ABC") 4 0 (by decide)
  · exact h7 ⟨fun _ => some "AB", fun _ => SubmitOutcome.accepted⟩ 4 0 (by decide)
  · exact h8 ⟨fun _ => some "ABC12", fun _ => SubmitOutcome.accepted⟩ 4 0 (by decide) rfl

/-! ## Staging rows, deduplication and partition isolation
(gh-plate-sync.cjs processStation, lines 359-366 and 578-607) -/

/-- Scraped plate cell as collected by the page.evaluate at lines 548-556:
the plate number text and the raw price text (after the unit suffix and
the commas are removed). -/
structure Plate where
  no : String
  price : String
deriving DecidableEq, Repr

/-- Model of JavaScript parseInt(s) || 0 on the scraped price text: the
longest leading digit run is parsed; no leading digit yields NaN, which
the || 0 turns into 0. -/
def jsParseIntOr0 (s : String) : ℕ :=
  (s.data.takeWhile Char.isDigit).foldl (fun n c => n * 10 + (c.toNat - 48)) 0

/-- Row of the available_plates_staging table as written at lines
586-598. -/
structure StagingRow where
  station_id : String
  station_name : String
  region_id : String
  plate_type : String
  window_id : String
  plate_no : String
  price : ℕ
  updated_at : String
  status : String
deriving DecidableEq, Repr

/-- Model of JavaScript Map.prototype.set on an association list holding
the keys in first-insertion order: an existing key keeps its position and
receives the new value, a new key is appended at the end. -/
def mapSet (m : List (String × Plate)) (k : String) (p : Plate) :
    List (String × Plate) :=
  match m with
  | [] => [(k, p)]
  | kv :: rest => if kv.1 = k then (k, p) :: rest else kv :: mapSet rest k p

/-- Deduplication map built at lines 580-583: every collected plate with
a truthy (nonempty) number is written into a Map keyed by the number, so
the last occurrence wins. -/
def uniquePlatesMap (collected : List Plate) : List (String × Plate) :=
  collected.foldl (fun m p => if p.no ≠ "" then mapSet m p.no p else m) []

/-- Deduplicated rows, Array.from(uniquePlatesMap.values()) at line 584. -/
def finalPlates (collected : List Plate) : List Plate :=
  (uniquePlatesMap collected).map Prod.snd

/-- Value the association list holds for a key. -/
def mapLookup (m : List (String × Plate)) (k : String) : Option Plate :=
  (m.find? (fun kv => kv.1 == k)).map Prod.snd

/-- Last collected plate carrying the given plate number: an occurrence
later in the list takes precedence. -/
def lastOcc : List Plate → String → Option Plate
  | [], _ => none
  | p :: rest, k =>
    match lastOcc rest k with
    | some q => some q
    | none => if p.no = k then some p else none

/-- Staging rows built from the deduplicated plates by the insert mapping
at lines 586-598. -/
def stageRows (regionId stationId stationName pType : String)
    (plates : List Plate) (now : String) : List StagingRow :=
  plates.map (fun p =>
    { station_id := stationId, station_name := stationName,
      region_id := regionId, plate_type := pType, window_id := "01",
      plate_no := p.no, price := jsParseIntOr0 p.price,
      updated_at := now, status := "AVAILABLE" })

/-- Staging pre-clear for one station (lines 359-366): delete exactly the
rows whose station_id and region_id both equal the station being
processed. -/
def clearStationStaging (staging : List StagingRow) (regionId stationId : String) :
    List StagingRow :=
  staging.filter (fun r => !(r.station_id == stationId && r.region_id == regionId))

/-- Rows of one (region_id, station_id) staging partition. -/
def partitionRows (staging : List StagingRow) (regionId stationId : String) :
    List StagingRow :=
  staging.filter (fun r => r.region_id == regionId && r.station_id == stationId)

/-- Effect of one station and plate type on the staging table: the
partition pre-clear followed by the insert of the deduplicated rows for
that partition. -/
def processStationStagingEffect (staging : List StagingRow)
    (regionId stationId stationName pType : String)
    (collected : List Plate) (now : String) : List StagingRow :=
  clearStationStaging staging regionId stationId ++
    stageRows regionId stationId stationName pType (finalPlates collected) now

theorem mapLookup_mapSet_self (m : List (String × Plate)) (k : String) (p : Plate) :
    mapLookup (mapSet m k p) k = some p := by
  induction m with
  | nil => simp [mapSet, mapLookup]
  | cons kv rest ih =>
    by_cases h : kv.1 = k
    · simp [mapSet, mapLookup, h]
    · simp only [mapSet, if_neg h]
      simpa [mapLookup, List.find?_cons, h] using ih

theorem mapLookup_mapSet_ne (m : List (String × Plate)) (k k2 : String) (p : Plate)
    (h : k2 ≠ k) : mapLookup (mapSet m k p) k2 = mapLookup m k2 := by
  induction m with
  | nil => simp [mapSet, mapLookup, Ne.symm h]
  | cons kv rest ih =>
    by_cases hk : kv.1 = k
    · by_cases hk2 : kv.1 = k2
      · exact absurd (hk2.symm.trans hk) h
      · simp [mapSet, mapLookup, hk, hk2, h, Ne.symm h]
    · by_cases hk2 : kv.1 = k2
      · simp [mapSet, mapLookup, hk, hk2, h, Ne.symm h]
      · simp only [mapSet, if_neg hk]
        simpa [mapLookup, List.find?_cons, hk2] using ih

theorem uniquePlatesMap_fold_lookup (collected : List Plate) :
    ∀ (m : List (String × Plate)) (k : String), k ≠ "" →
      mapLookup (collected.foldl
        (fun m p => if p.no ≠ "" then mapSet m p.no p else m) m) k =
      (lastOcc collected k).elim (mapLookup m k) some := by
  induction collected with
  | nil => intro m k _; simp [lastOcc]
  | cons p rest ih =>
    intro m k hk
    simp only [List.foldl_cons]
    rw [ih _ k hk]
    rcases hlast : lastOcc rest k with _ | q
    · have hcons : lastOcc (p :: rest) k = if p.no = k then some p else none := by
        simp only [lastOcc, hlast]
      rw [hcons]
      by_cases hpk : p.no = k
      · have hne : p.no ≠ "" := by rw [hpk]; exact hk
        rw [if_pos hpk, if_pos hne]
        simp only [Option.elim]
        rw [hpk, mapLookup_mapSet_self]
      · rw [if_neg hpk]
        simp only [Option.elim]
        by_cases hne : p.no ≠ ""
        · rw [if_pos hne]
          exact mapLookup_mapSet_ne m p.no k p (fun h2 => hpk h2.symm)
        · rw [if_neg hne]
    · have hcons : lastOcc (p :: rest) k = some q := by
        simp only [lastOcc, hlast]
      rw [hcons]
      simp [Option.elim]

/-- C5: the rows staged for one query are the collected rows deduplicated
by plate_no with the last occurrence winning; on the spec example
[(A,10),(B,20),(A,15)] exactly one row for A with price 15 and one row
for B with price 20 are staged, and in general the deduplicated value
held for any nonempty plate number is its last collected occurrence. -/
theorem staging_dedup_last_wins :
    ((stageRows "2" "20" "Taipei" "g"
        (finalPlates [⟨"A", "10"⟩, ⟨"B", "20"⟩, ⟨"A", "15"⟩]) "t").map
      (fun r => (r.plate_no, r.price)) = [("A", 15), ("B", 20)]) ∧
    (∀ (collected : List Plate) (k : String), k ≠ "" →
      mapLookup (uniquePlatesMap collected) k = lastOcc collected k) := by
  constructor
  · decide
  · intro collected k hk
    have := uniquePlatesMap_fold_lookup collected [] k hk
    rw [uniquePlatesMap, this]
    rcases lastOcc collected k with _ | q <;> simp [mapLookup]

/-- Witness for C5: the last-occurrence property applied at the spec
example for the nonempty plate number A. -/
theorem staging_dedup_last_wins_witness :
    mapLookup (uniquePlatesMap [⟨"A", "10"⟩, ⟨"B", "20"⟩, ⟨"A", "15"⟩]) "A" =
      lastOcc [⟨"A", "10"⟩, ⟨"B", "20"⟩, ⟨"A", "15"⟩] "A" :=
  staging_dedup_last_wins.2 [⟨"A", "10"⟩, ⟨"B", "20"⟩, ⟨"A", "15"⟩] "A" (by decide)

/-- C6: processing a station touches only its own (region_id, station_id)
staging partition: the pre-clear deletes only rows of that partition, and
after the pre-clear plus insert every other partition holds exactly the
rows it held before. -/
theorem staging_partition_isolation (staging : List StagingRow)
    (regionId stationId stationName pType : String)
    (collected : List Plate) (now : String) (r2 s2 : String)
    (hne : ¬(r2 = regionId ∧ s2 = stationId)) :
    (∀ row ∈ staging, row ∉ clearStationStaging staging regionId stationId →
      row.region_id = regionId ∧ row.station_id = stationId) ∧
    partitionRows (processStationStagingEffect staging regionId stationId
        stationName pType collected now) r2 s2 =
      partitionRows staging r2 s2 := by
  constructor
  · intro row hmem hnot
    by_contra hcon
    apply hnot
    rw [clearStationStaging, List.mem_filter]
    refine ⟨hmem, ?_⟩
    simp only [Bool.not_eq_true', Bool.and_eq_false_iff, beq_eq_false_iff_ne, ne_eq]
    by_cases h1 : row.station_id = stationId
    · right
      intro h2
      exact hcon ⟨h2, h1⟩
    · left
      exact h1
  · rw [processStationStagingEffect, partitionRows, List.filter_append]
    have h2 : (stageRows regionId stationId stationName pType
        (finalPlates collected) now).filter
          (fun r => r.region_id == r2 && r.station_id == s2) = [] := by
      rw [List.filter_eq_nil_iff]
      intro a ha
      rw [stageRows, List.mem_map] at ha
      obtain ⟨p, -, hp⟩ := ha
      rw [← hp]
      simp only [Bool.and_eq_true, beq_iff_eq, not_and]
      intro hr hs
      exact hne ⟨hr.symm, hs.symm⟩
    rw [h2, List.append_nil, clearStationStaging, List.filter_filter]
    rw [partitionRows]
    apply List.filter_congr
    intro row hrow
    by_cases hp : (row.region_id == r2 && row.station_id == s2) = true
    · rw [hp]
      simp only [Bool.true_and, Bool.not_eq_true', Bool.and_eq_false_iff,
        beq_eq_false_iff_ne, ne_eq]
      simp only [Bool.and_eq_true, beq_iff_eq] at hp
      by_cases h1 : row.station_id = stationId
      · right
        intro h2
        exact hne ⟨(h2.symm.trans hp.1).symm, (h1.symm.trans hp.2).symm⟩
      · left
        exact h1
    · rw [Bool.not_eq_true] at hp
      rw [hp]
      simp
  -- end of staging_partition_isolation

/-- Sample staging row in partition (region 2, station 20). -/
def rowStation20 : StagingRow :=
  ⟨"20", "a", "2", "g", "01", "AAA-0001", 1000, "t", "AVAILABLE"⟩

/-- Sample staging row in partition (region 2, station 21). -/
def rowStation21 : StagingRow :=
  ⟨"21", "b", "2", "g", "01", "BBB-0002", 2000, "t", "AVAILABLE"⟩

/-- Witness for C6 on a concrete staging table: processing station
(region 2, station 20) leaves the partition (region 2, station 21)
identical, and the only deleted row belongs to the processed partition. -/
theorem staging_partition_isolation_witness :
    (∀ row ∈ [rowStation20, rowStation21],
      row ∉ clearStationStaging [rowStation20, rowStation21] "2" "20" →
      row.region_id = "2" ∧ row.station_id = "20") ∧
    partitionRows (processStationStagingEffect [rowStation20, rowStation21]
        "2" "20" "a" "g" [⟨"CCC-3333", "3000"⟩] "t2") "2" "21" =
      partitionRows [rowStation20, rowStation21] "2" "21" :=
  staging_partition_isolation [rowStation20, rowStation21] "2" "20" "a" "g"
    [⟨"CCC-3333", "3000"⟩] "t2" "2" "21" (by decide)

/-! ## Publish protocol (gh-plate-sync.cjs performSwap and its call site;
trigger_swap.cjs run) -/

/-- State of the backing store relevant to the publish step: the staging
table, the production view, and how many times the swap RPC has been
invoked. -/
structure StoreState where
  staging : List StagingRow
  production : List StagingRow
  swapCalls : ℕ
deriving DecidableEq, Repr

/-- Modelled from the spec: swap_plates_data, the backing-store-side
atomic operation invoked over RPC, is not part of this repository; per
the spec it replaces the production view contents with the staging
contents as one transaction. The model also counts the invocation. -/
def swap_plates_data (s : StoreState) : StoreState :=
  { s with production := s.staging, swapCalls := s.swapCalls + 1 }

/-- Full-mode publish step performSwap (gh-plate-sync.cjs lines 338-347,
invoked at line 716 whenever the run is unsharded): the swap RPC is
invoked unconditionally, with no staging row count check beforehand. -/
def performSwap (s : StoreState) : StoreState :=
  swap_plates_data s

/-- Finalizer publish step run() of trigger_swap.cjs (lines 14-50): the
staging row count is read first and a count of exactly 0 returns without
invoking the swap RPC. -/
def trigger_swap_run (s : StoreState) : StoreState :=
  if s.staging.length = 0 then s else swap_plates_data s

/-- C1 counterexample: a full-mode run reaching the publish step with an
empty staging table still invokes swap_plates_data, and the production
view is erased rather than left unchanged. -/
theorem swap_empty_staging_counterexample :
    (performSwap ⟨[], [rowStation20], 0⟩).swapCalls = 1 ∧
    (performSwap ⟨[], [rowStation20], 0⟩).production = [] ∧
    ((performSwap ⟨[], [rowStation20], 0⟩).production ==
      (⟨[], [rowStation20], 0⟩ : StoreState).production) = false := by
  refine ⟨rfl, rfl, by decide⟩

/-- C1 amended: the staging-count guard lives only in the finalizer
publish step of trigger_swap.cjs, where an empty staging skips the swap
and leaves the store untouched while a nonempty staging swaps and
replaces the production contents wholesale; the full-mode publish step of
gh-plate-sync.cjs invokes the swap RPC unconditionally. -/
theorem trigger_swap_guard (s : StoreState) :
    (s.staging.length = 0 → trigger_swap_run s = s) ∧
    (1 ≤ s.staging.length →
      (trigger_swap_run s).swapCalls = s.swapCalls + 1 ∧
      (trigger_swap_run s).production = s.staging) ∧
    (performSwap s).swapCalls = s.swapCalls + 1 := by
  refine ⟨fun h0 => ?_, fun h1 => ?_, rfl⟩
  · rw [trigger_swap_run, if_pos h0]
  · rw [trigger_swap_run, if_neg (by omega)]
    exact ⟨rfl, rfl⟩

/-- Witness for the amended C1: an empty staging is left alone by the
finalizer, and a one-row staging is swapped into production. -/
theorem trigger_swap_guard_witness :
    trigger_swap_run ⟨[], [rowStation20], 0⟩ = ⟨[], [rowStation20], 0⟩ ∧
    (trigger_swap_run ⟨[rowStation21], [rowStation20], 0⟩).swapCalls = 1 ∧
    (trigger_swap_run ⟨[rowStation21], [rowStation20], 0⟩).production =
      [rowStation21] :=
  ⟨(trigger_swap_guard ⟨[], [rowStation20], 0⟩).1 rfl,
   (trigger_swap_guard ⟨[rowStation21], [rowStation20], 0⟩).2.1 (by decide)⟩

/-! ## Top-level run control flow (gh-plate-sync.cjs main IIFE,
lines 639-760) -/

/-- Top-level names bound in gh-plate-sync.cjs: the requires (lines 9-15),
logging bindings (lines 28-31), the RateLimiter class and its instance,
configuration constants, argument parsing results, global station state,
clients, and every function and class declared in the file. -/
def ghPlateSyncGlobals : List String :=
  ["puppeteer", "StealthPlugin", "createClient", "GoogleGenerativeAI",
   "fs", "path", "util", "logDir", "logFile", "logStdout", "RateLimiter",
   "geminiLimiter", "envPath", "SUPABASE_URL", "SUPABASE_KEY",
   "GEMINI_API_KEY", "PROXY_URL", "MODEL_NAME", "MVDIS_URL", "args",
   "shardArg", "TARGET_SHARD", "TARGET_DEPTS", "totalStations", "supabase",
   "genAI", "model", "loadStationData", "SyncStats", "stats",
   "HIGH_RISK_STATIONS", "sleep", "randomSleep", "adaptiveSleep",
   "humanType", "solveCaptcha", "doSubmit", "parsePageInfo", "clearStaging",
   "reportStatus", "performSwap", "processStation"]

/-- Methods defined on class SyncStats (gh-plate-sync.cjs lines
134-181). -/
def syncStatsMethods : List String :=
  ["constructor", "addError", "save"]

/-- Station entry of the configuration loaded by loadStationData. -/
structure Station where
  id : String
  name : String
  no_rental : Bool
  shard : Option String
deriving DecidableEq, Repr

/-- Outcome of the crawl phase of one processStation call, before the
closing stats block: the per-type loop completed (with the station
counted SUCCESS or FAILED), or the navigation retries were exhausted and
the error was rethrown (line 397). -/
inductive CrawlOutcome where
  | success
  | queryExhausted
  | navThrow
deriving DecidableEq, Repr

/-- Model of one processStation call (lines 349-635). A navigation throw
propagates out directly. Any completed crawl phase reaches the closing
stats block (lines 626-634), which evaluates getRegion(station.id) inside
the argument of stats.addStationStat: a missing getRegion global raises a
ReferenceError, and were it defined, the missing addStationStat method
would raise a TypeError. Returns the thrown error message, if any. -/
def processStationRun (globals methods : List String)
    (crawl : CrawlOutcome) : Option String :=
  match crawl with
  | CrawlOutcome.navThrow => some "navigation retries exhausted"
  | _ =>
    if !(globals.contains "getRegion") then
      some "ReferenceError: getRegion is not defined"
    else if !(methods.contains "addStationStat") then
      some "TypeError: stats.addStationStat is not a function"
    else none

/-- Station loop of the main IIFE (lines 700-711), flattened over
departments: stations are processed in order and the first thrown error
propagates, aborting the loop. Returns the number of processStation calls
made and the first error, if any. -/
def stationLoop (globals methods : List String)
    (oracle : Station → CrawlOutcome) : List Station → ℕ × Option String
  | [] => (0, none)
  | st :: rest =>
    match processStationRun globals methods (oracle st) with
    | some e => (1, some e)
    | none =>
      let r := stationLoop globals methods oracle rest
      (r.1 + 1, r.2)

/-- Terminal status values of a run (RunStats.status). -/
inductive RunStatus where
  | RUNNING
  | COMPLETED
  | WARNING
  | FAILED
deriving DecidableEq, Repr

/-- Observable outcome of one worker run: the process exit code, the
final stats status, how many stations were entered, and whether the
full-mode swap was invoked. -/
structure MainResult where
  exitCode : ℕ
  status : RunStatus
  stationsProcessed : ℕ
  swapInvoked : Bool
deriving DecidableEq, Repr

/-- Top-level control flow of gh-plate-sync.cjs: missing required
environment variables exit 1 before anything runs (lines 86-89); a
loadStationData failure exits 1 (lines 641-646); otherwise the try block
runs the station loop and, in full (unsharded) mode, performSwap is
invoked unconditionally (lines 713-719); a thrown error is caught and the
run is marked FAILED (lines 730-735); the finally block always ends with
process.exit(0) (line 758), so every run that survives initialization
exits 0. stagingCount is the count query result at line 721. -/
def ghPlateSyncMain (globals methods : List String)
    (envVarsPresent loadOk : Bool) (shard : Option String)
    (stations : List Station) (oracle : Station → CrawlOutcome)
    (stagingCount : ℕ) : MainResult :=
  if !envVarsPresent then ⟨1, RunStatus.RUNNING, 0, false⟩
  else if !loadOk then ⟨1, RunStatus.RUNNING, 0, false⟩
  else
    let r := stationLoop globals methods oracle stations
    match r.2 with
    | some _ => ⟨0, RunStatus.FAILED, r.1, false⟩
    | none =>
      if stagingCount = 0 ∧ shard.isNone then
        ⟨0, RunStatus.WARNING, r.1, shard.isNone⟩
      else ⟨0, RunStatus.COMPLETED, r.1, shard.isNone⟩

/-- C2: neither getRegion nor an addStationStat method exists in the
program, so every run whose first station completes its crawl — even
fully successfully — throws in the closing stats block, the catch marks
the run FAILED, and no further station is processed. -/
theorem missing_getRegion_aborts_run :
    ghPlateSyncGlobals.contains "getRegion" = false ∧
    syncStatsMethods.contains "addStationStat" = false ∧
    (∀ (st : Station) (rest : List Station) (oracle : Station → CrawlOutcome)
        (shard : Option String) (stagingCount : ℕ),
      oracle st = CrawlOutcome.success →
      (ghPlateSyncMain ghPlateSyncGlobals syncStatsMethods true true shard
        (st :: rest) oracle stagingCount).status = RunStatus.FAILED ∧
      (ghPlateSyncMain ghPlateSyncGlobals syncStatsMethods true true shard
        (st :: rest) oracle stagingCount).stationsProcessed = 1) := by
  refine ⟨by decide, by decide, fun st rest oracle shard cnt hsucc => ?_⟩
  have hrun : processStationRun ghPlateSyncGlobals syncStatsMethods (oracle st) =
      some "ReferenceError: getRegion is not defined" := by
    rw [hsucc]
    decide
  have hloop : stationLoop ghPlateSyncGlobals syncStatsMethods oracle (st :: rest) =
      (1, some "ReferenceError: getRegion is not defined") := by
    simp only [stationLoop, hrun]
  simp only [ghPlateSyncMain, Bool.not_true, if_false, hloop]
  exact ⟨rfl, rfl⟩

/-- Witness for C2: a one-station full run whose crawl succeeds ends
FAILED with exactly one station entered. -/
theorem missing_getRegion_aborts_run_witness :
    (ghPlateSyncMain ghPlateSyncGlobals syncStatsMethods true true none
      [⟨"20", "Taipei", false, none⟩] (fun _ => CrawlOutcome.success) 0).status =
      RunStatus.FAILED ∧
    (ghPlateSyncMain ghPlateSyncGlobals syncStatsMethods true true none
      [⟨"20", "Taipei", false, none⟩] (fun _ => CrawlOutcome.success) 0).stationsProcessed = 1 :=
  missing_getRegion_aborts_run.2.2 ⟨"20", "Taipei", false, none⟩ []
    (fun _ => CrawlOutcome.success) none 0 rfl

/-- C3 counterexample: a run that survives initialization and then hits a
top-level failure (here: navigation retries exhausted, rethrown out of
processStation) is caught, marked FAILED, and still exits with code 0,
not 1. -/
theorem exit_code_counterexample :
    (ghPlateSyncMain ghPlateSyncGlobals syncStatsMethods true true none
      [⟨"20", "Taipei", false, none⟩] (fun _ => CrawlOutcome.navThrow) 0).status =
      RunStatus.FAILED ∧
    (ghPlateSyncMain ghPlateSyncGlobals syncStatsMethods true true none
      [⟨"20", "Taipei", false, none⟩] (fun _ => CrawlOutcome.navThrow) 0).exitCode = 0 := by
  constructor <;> rfl

/-- C3 amended: the worker exits 1 exactly on fatal initialization
failure (missing environment variables or station-config load failure);
every run that survives initialization exits 0 from the finally block,
including runs whose top-level failure was caught and marked FAILED. -/
theorem exit_code_characterization (globals methods : List String)
    (envVarsPresent loadOk : Bool) (shard : Option String)
    (stations : List Station) (oracle : Station → CrawlOutcome)
    (stagingCount : ℕ) :
    (ghPlateSyncMain globals methods envVarsPresent loadOk shard stations
      oracle stagingCount).exitCode =
      if envVarsPresent && loadOk then 0 else 1 := by
  rcases envVarsPresent with _ | _
  · rfl
  · rcases loadOk with _ | _
    · rfl
    · simp only [ghPlateSyncMain]
      rcases h : (stationLoop globals methods oracle stations).2 with _ | e
      · simp only [h, Bool.not_true, Bool.false_eq_true, if_false, Bool.and_self,
          if_true]
        split_ifs <;> rfl
      · simp only [h, Bool.not_true, Bool.false_eq_true, if_false, Bool.and_self,
          if_true]

/-- C8: the adaptive sleep window scales the base bounds by exactly 0.75
when latency is below 1500 ms, by 1.5 when latency is above 4000 ms, and
leaves them unchanged (multiplier 1.0) otherwise. -/
theorem adaptiveSleep_scaling (mn mx : ℕ) (latency : ℤ) :
    (latency < 1500 →
      adaptiveMultiplier latency = 3 / 4 ∧
      adaptiveSleep mn mx latency =
        (Int.floor ((mn : ℚ) * (3 / 4)), Int.floor ((mx : ℚ) * (3 / 4)))) ∧
    (latency > 4000 →
      adaptiveMultiplier latency = 3 / 2 ∧
      adaptiveSleep mn mx latency =
        (Int.floor ((mn : ℚ) * (3 / 2)), Int.floor ((mx : ℚ) * (3 / 2)))) ∧
    (1500 ≤ latency → latency ≤ 4000 →
      adaptiveMultiplier latency = 1 ∧
      adaptiveSleep mn mx latency = ((mn : ℤ), (mx : ℤ))) := by
  refine ⟨fun h => ?_, fun h => ?_, fun h1 h2 => ?_⟩
  · constructor
    · simp [adaptiveMultiplier, h]
    · simp [adaptiveSleep, adaptiveMultiplier, h]
  · have hlt : ¬ latency < 1500 := by omega
    constructor
    · simp [adaptiveMultiplier, hlt, h]
    · simp [adaptiveSleep, adaptiveMultiplier, hlt, h]
  · have hlt : ¬ latency < 1500 := by omega
    have hgt : ¬ latency > 4000 := by omega
    constructor
    · simp [adaptiveMultiplier, hlt, hgt]
    · simp [adaptiveSleep, adaptiveMultiplier, hlt, hgt]

/-- Witness for C8 at the latencies named by the spec: 1000 ms gives the
0.75 window, 5000 ms the 1.5 window, 2500 ms the unchanged window. -/
theorem adaptiveSleep_scaling_witness :
    adaptiveSleep 800 1500 1000 = (600, 1125) ∧
    adaptiveSleep 800 1500 5000 = (1200, 2250) ∧
    adaptiveSleep 800 1500 2500 = (800, 1500) := by
  refine ⟨?_, ?_, ?_⟩
  · have h := (adaptiveSleep_scaling 800 1500 1000).1 (by norm_num)
    rw [h.2]
    norm_num
  · have h := (adaptiveSleep_scaling 800 1500 5000).2.1 (by norm_num)
    rw [h.2]
    norm_num
  · have h := (adaptiveSleep_scaling 800 1500 2500).2.2 (by norm_num) (by norm_num)
    exact h.2

/-- C10: when the page-number marker claims a single page (current 1 of
total 1) but a next-page control is present and there is data, the parsed
total is raised to 2 and the pagination loop clicks the next-page control
instead of stopping. -/
theorem pagination_next_button_authoritative (s : PageSignals)
    (domStatusNext domIdNext : Bool)
    (hnd : s.noDataText = false)
    (hpm : s.pageMarker = some (1, 1))
    (hbtn : s.hasNextButton = true)
    (hdom : s.hasNextButton = (domStatusNext || domIdNext)) :
    (parsePageInfo s).total = 2 ∧
    (parsePageInfo s).current < (parsePageInfo s).total ∧
    paginationStep (parsePageInfo s) domStatusNext domIdNext = PageStep.clickNext := by
  have hd : (domStatusNext || domIdNext) = true := by rw [← hdom, hbtn]
  have hinfo : parsePageInfo s =
      { current := 1, total := 2, count := s.countMarker.getD 0, noData := false,
        hasNextButton := true } := by
    simp [parsePageInfo, hnd, hpm, hbtn]
  refine ⟨by rw [hinfo], by rw [hinfo]; norm_num, ?_⟩
  rw [hinfo]
  rcases Bool.or_eq_true_iff.mp hd with h | h <;>
    simp [paginationStep, h]

/-- Witness for C10 on a concrete page: marker says page 1 of 1, the
status_next_page control exists, and the loop continues. -/
theorem pagination_next_button_authoritative_witness :
    (parsePageInfo ⟨false, some 45, some (1, 1), true⟩).total = 2 ∧
    (parsePageInfo ⟨false, some 45, some (1, 1), true⟩).current <
      (parsePageInfo ⟨false, some 45, some (1, 1), true⟩).total ∧
    paginationStep (parsePageInfo ⟨false, some 45, some (1, 1), true⟩) true false =
      PageStep.clickNext :=
  pagination_next_button_authoritative ⟨false, some 45, some (1, 1), true⟩ true false
    rfl rfl rfl rfl

end PlateSync
